import Mathlib

/-!
Verification of the ledger core of the NGO accounting system
(backend/api/journals.py, backend/api/reports.py, backend/api/currencies.py,
backend/api/organization.py, backend/api/grants.py,
backend/services/financial_calculations.py).

Conventions of the shallow embedding:
* Python `Decimal` amounts are modelled as exact rationals (`ℚ`).  Decimal
  addition, subtraction and comparison on the values appearing here are
  exact, and Decimal division is the correctly rounded 28-digit quotient of
  the same rational value; cent-level statements are unaffected.
* Dates are modelled as integers (day ordinals); only order matters.
* Database tables are lists of records; primary-key lookups
  (`query.get`, `get_or_404`) become `List.find?` on the id field.
* A mutating endpoint becomes a function from the old state to a result
  together with the new state; on an error response the state is returned
  unchanged (the transaction is not committed).
-/

namespace NGOLedger

/-- Account types, from `AccountType` in backend/models.py. -/
inductive AccountType where
  | asset
  | liability
  | equity
  | revenue
  | expense
deriving DecidableEq

/-- An account row (backend/models.py, `Account`), restricted to the fields
the claims need. -/
structure Account where
  id : Nat
  account_type : AccountType
  is_active : Bool
deriving DecidableEq

/-- A journal entry row (backend/models.py, `JournalEntry`). -/
structure JournalEntry where
  id : Nat
  entry_date : Int
  description : String
  total_debit : ℚ
  total_credit : ℚ
  currency_id : Nat
  exchange_rate : ℚ
  is_posted : Bool
  posted_at : Option Int
deriving DecidableEq

/-- A journal entry line row (backend/models.py, `JournalEntryLine`). -/
structure JournalEntryLine where
  journal_entry_id : Nat
  account_id : Nat
  project_id : Option Nat
  debit_amount : ℚ
  credit_amount : ℚ
  line_number : Nat
deriving DecidableEq

/-- The ledger tables relevant to the claims. -/
structure Ledger where
  accounts : List Account
  entries : List JournalEntry
  lines : List JournalEntryLine
deriving DecidableEq

/-- One line of a journal-entry creation request
(backend/api/journals.py, `create_journal_entry`; absent JSON keys already
replaced by the `.get(..., 0)` defaults). -/
structure LineInput where
  account_id : Nat
  project_id : Option Nat
  debit_amount : ℚ
  credit_amount : ℚ
  line_number : Nat
deriving DecidableEq

/-- A journal-entry creation request.  A missing or empty `description`
is the falsy value `""`; missing lines are the empty list.  The date string
is assumed well formed and already parsed. -/
structure CreateRequest where
  entry_date : Int
  description : String
  currency_id : Nat
  exchange_rate : ℚ
  lines : List LineInput
deriving DecidableEq

/-- Result of the creation endpoint: a 400 response or the created entry
with its lines. -/
inductive CreateResult where
  | validationError (msg : String)
  | created (entry : JournalEntry) (entryLines : List JournalEntryLine)
deriving DecidableEq

/-- `sum(Decimal(str(line.get('debit_amount', 0))) for line in data['lines'])`. -/
def sumDebits (ls : List LineInput) : ℚ :=
  (ls.map (·.debit_amount)).sum

/-- `sum(Decimal(str(line.get('credit_amount', 0))) for line in data['lines'])`. -/
def sumCredits (ls : List LineInput) : ℚ :=
  (ls.map (·.credit_amount)).sum

/-- backend/api/journals.py, `create_journal_entry` (lines 85-187).
Checks, in source order: required fields, at least 2 lines, debits equal
credits, nonzero total, and per line that the referenced account exists.
No per-line check on the debit/credit sides is performed.  `accountIds` is
the set of existing account ids; `newId` the id the database assigns. -/
def create_journal_entry (accountIds : List Nat) (newId : Nat)
    (req : CreateRequest) : CreateResult :=
  if req.description = "" ∨ req.lines = [] then
    .validationError "Entry date, description, and lines are required"
  else if req.lines.length < 2 then
    .validationError "Journal entry must have at least 2 lines"
  else if sumDebits req.lines ≠ sumCredits req.lines then
    .validationError "Total debits must equal total credits"
  else if sumDebits req.lines = 0 then
    .validationError "Journal entry cannot have zero amounts"
  else if req.lines.any (fun l => !(accountIds.contains l.account_id)) then
    .validationError "Account not found"
  else
    .created
      { id := newId
        entry_date := req.entry_date
        description := req.description
        total_debit := sumDebits req.lines
        total_credit := sumCredits req.lines
        currency_id := req.currency_id
        exchange_rate := req.exchange_rate
        is_posted := false
        posted_at := none }
      (req.lines.map (fun l =>
        { journal_entry_id := newId
          account_id := l.account_id
          project_id := l.project_id
          debit_amount := l.debit_amount
          credit_amount := l.credit_amount
          line_number := l.line_number }))

/-- Result of a state-changing journal endpoint: 404, 400 (invalid state),
or success. -/
inductive OpResult where
  | notFound
  | stateError (msg : String)
  | ok
deriving DecidableEq

/-- backend/api/journals.py, `post_journal_entry` (lines 189-207):
`get_or_404`, reject if already posted, otherwise set `is_posted` and
`posted_at` and commit.  `now` is `datetime.utcnow()`. -/
def post_journal_entry (st : Ledger) (entry_id : Nat) (now : Int) :
    OpResult × Ledger :=
  match st.entries.find? (fun e => e.id == entry_id) with
  | none => (.notFound, st)
  | some e =>
    if e.is_posted then
      (.stateError "Journal entry already posted", st)
    else
      (.ok,
        { st with
          entries := st.entries.map (fun x =>
            if x.id = entry_id then
              { x with is_posted := true, posted_at := some now }
            else x) })

/-- backend/api/journals.py, `delete_journal_entry` (lines 233-256):
`get_or_404`, reject if posted, otherwise delete the lines of the entry and
then the entry. -/
def delete_journal_entry (st : Ledger) (entry_id : Nat) :
    OpResult × Ledger :=
  match st.entries.find? (fun e => e.id == entry_id) with
  | none => (.notFound, st)
  | some e =>
    if e.is_posted then
      (.stateError "Cannot delete posted journal entry", st)
    else
      (.ok,
        { st with
          entries := st.entries.filter (fun x => !(x.id == entry_id)),
          lines := st.lines.filter (fun l => !(l.journal_entry_id == entry_id)) })

/-- Sum of `debit_amount` over all lines of one account. -/
def accountDebitSum (lines : List JournalEntryLine) (aid : Nat) : ℚ :=
  ((lines.filter (fun l => decide (l.account_id = aid))).map (·.debit_amount)).sum

/-- Sum of `credit_amount` over all lines of one account. -/
def accountCreditSum (lines : List JournalEntryLine) (aid : Nat) : ℚ :=
  ((lines.filter (fun l => decide (l.account_id = aid))).map (·.credit_amount)).sum

/-- One row of the trial balance payload. -/
structure TrialBalanceRow where
  account_id : Nat
  debit_amount : ℚ
  credit_amount : ℚ
  net_balance : ℚ
deriving DecidableEq

/-- backend/api/reports.py, `trial_balance` (lines 75-91): place the net
balance in the debit or credit column according to the normal side of the
account type. -/
def normalSideCols (t : AccountType) (net : ℚ) : ℚ × ℚ :=
  match t with
  | .asset | .expense => if net ≥ 0 then (net, 0) else (0, abs net)
  | _ => if net ≤ 0 then (0, abs net) else (net, 0)

/-- The trial balance row of one account, `none` when both columns are zero
(such accounts are omitted, reports.py line 94). -/
def trialBalanceRowOf (lines : List JournalEntryLine) (a : Account) :
    Option TrialBalanceRow :=
  let d := accountDebitSum lines a.id
  let c := accountCreditSum lines a.id
  let net := d - c
  let cols := normalSideCols a.account_type net
  if cols.1 ≠ 0 ∨ cols.2 ≠ 0 then
    some { account_id := a.id, debit_amount := cols.1,
           credit_amount := cols.2, net_balance := net }
  else none

/-- backend/api/reports.py, `trial_balance` (lines 39-122).  The SQL query
joins lines to active accounts with a LEFT OUTER JOIN and puts the
`entry_date <= as_of_date` and `is_posted` conditions in the ON clause of a
second LEFT OUTER JOIN to `journal_entries`; a line whose entry fails those
conditions therefore still produces a row (with NULL entry columns) and its
amounts are still summed.  Hence the per-account sums range over ALL lines
of each active account and the `as_of` argument does not affect them. -/
def trial_balance_rows (st : Ledger) (_as_of : Int) : List TrialBalanceRow :=
  (st.accounts.filter (·.is_active)).filterMap (trialBalanceRowOf st.lines)

/-- `summary.total_debit` of the trial balance report. -/
def trial_balance_total_debit (st : Ledger) (as_of : Int) : ℚ :=
  ((trial_balance_rows st as_of).map (·.debit_amount)).sum

/-- `summary.total_credit` of the trial balance report. -/
def trial_balance_total_credit (st : Ledger) (as_of : Int) : ℚ :=
  ((trial_balance_rows st as_of).map (·.credit_amount)).sum

/-- Sum of line debits of one journal entry. -/
def entryLineDebits (lines : List JournalEntryLine) (eid : Nat) : ℚ :=
  ((lines.filter (fun l => decide (l.journal_entry_id = eid))).map (·.debit_amount)).sum

/-- Sum of line credits of one journal entry. -/
def entryLineCredits (lines : List JournalEntryLine) (eid : Nat) : ℚ :=
  ((lines.filter (fun l => decide (l.journal_entry_id = eid))).map (·.credit_amount)).sum

/-- Well-formedness of a ledger state: distinct account and entry ids,
every line referencing an existing active account and an existing entry,
and every entry (posted or not) balanced on its lines. -/
def LedgerWellFormed (st : Ledger) : Prop :=
  (st.accounts.map (·.id)).Nodup ∧
  (st.entries.map (·.id)).Nodup ∧
  (∀ l ∈ st.lines, ∃ a ∈ st.accounts, a.id = l.account_id ∧ a.is_active = true) ∧
  (∀ l ∈ st.lines, ∃ e ∈ st.entries, e.id = l.journal_entry_id) ∧
  (∀ e ∈ st.entries, entryLineDebits st.lines e.id = entryLineCredits st.lines e.id)

instance (st : Ledger) : Decidable (LedgerWellFormed st) := by
  unfold LedgerWellFormed
  infer_instance

/-- A grant row (backend/models.py, `Grant`), restricted to the fields the
utilization calculation reads. -/
structure Grant where
  id : Nat
  project_id : Option Nat
  amount : ℚ
  start_date : Int
  end_date : Int
deriving DecidableEq

/-- The payload of `calculate_grant_utilization`. -/
structure GrantUtilization where
  grant_amount : ℚ
  utilized_amount : ℚ
  remaining_balance : ℚ
  utilization_percentage : ℚ
  status : String
deriving DecidableEq

/-- Whether the entry of a line is posted: the inner join of
`JournalEntryLine` to `JournalEntry` followed by the `is_posted` filter. -/
def linePosted (entries : List JournalEntry) (l : JournalEntryLine) : Bool :=
  entries.any (fun e => decide (e.id = l.journal_entry_id) && e.is_posted)

/-- backend/services/financial_calculations.py, lines 49-54: sum of
`debit_amount` over posted lines whose `project_id` equals the given one.
There is no condition on the entry date.  SQLAlchemy renders a comparison
with a missing project id as IS NULL, which `Option` equality mirrors. -/
def postedProjectDebits (st : Ledger) (pid : Option Nat) : ℚ :=
  ((st.lines.filter (fun l =>
      decide (l.project_id = pid) && linePosted st.entries l)).map
    (·.debit_amount)).sum

/-- backend/services/financial_calculations.py, `calculate_grant_utilization`
(lines 41-65). -/
def calculate_grant_utilization (st : Ledger) (grants : List Grant)
    (grant_id : Nat) : Option GrantUtilization :=
  match grants.find? (fun g => g.id == grant_id) with
  | none => none
  | some grant =>
    let total_expenses := postedProjectDebits st grant.project_id
    some
      { grant_amount := grant.amount
        utilized_amount := total_expenses
        remaining_balance := grant.amount - total_expenses
        utilization_percentage :=
          if grant.amount > 0 then total_expenses / grant.amount * 100 else 0
        status :=
          if grant.amount - total_expenses < 0 then "over_budget" else "on_track" }

/-- The utilized amount as the specification words it (and as the grants
list endpoint backend/api/grants.py lines 66-74 computes it): debits of
posted lines on the project whose entry date lies within
start_date..end_date inclusive. -/
def utilizedInPeriod (st : Ledger) (g : Grant) : ℚ :=
  ((st.lines.filter (fun l =>
      decide (l.project_id = g.project_id) &&
      st.entries.any (fun e =>
        decide (e.id = l.journal_entry_id) && e.is_posted &&
        decide (g.start_date ≤ e.entry_date) &&
        decide (e.entry_date ≤ g.end_date)))).map
    (·.debit_amount)).sum

/-- The payload of `calculate_budget_variance`. -/
structure BudgetVariance where
  variance_amount : ℚ
  variance_percentage : ℚ
  variance_type : String
  actual_amount : ℚ
  budgeted_amount : ℚ
deriving DecidableEq

/-- backend/services/financial_calculations.py, `calculate_budget_variance`
(lines 27-39): `variance = actual_amount - budgeted_amount`, favorable when
negative. -/
def calculate_budget_variance (actual_amount budgeted_amount : ℚ) :
    BudgetVariance :=
  let variance := actual_amount - budgeted_amount
  { variance_amount := variance
    variance_percentage :=
      if budgeted_amount ≠ 0 then variance / budgeted_amount * 100 else 0
    variance_type := if variance < 0 then "favorable" else "unfavorable"
    actual_amount := actual_amount
    budgeted_amount := budgeted_amount }

/-- One line comparison of the budget report. -/
structure LineComparison where
  variance : ℚ
  variance_percentage : ℚ
  variance_type : String
deriving DecidableEq

/-- backend/api/reports.py, `budget_comparison_report` (lines 1007-1020):
`variance = budgeted_amount - actual_amount`, favorable when positive. -/
def budget_comparison_line (budgeted_amount actual_amount : ℚ) :
    LineComparison :=
  let variance := budgeted_amount - actual_amount
  { variance := variance
    variance_percentage :=
      if budgeted_amount > 0 then variance / budgeted_amount * 100 else 0
    variance_type := if variance > 0 then "favorable" else "unfavorable" }

/-- A fixed asset row (backend/models.py, `FixedAsset`), restricted to the
fields the depreciation calculation reads. -/
structure FixedAsset where
  purchase_cost : ℚ
  salvage_value : ℚ
  useful_life_years : ℕ
  accumulated_depreciation : ℚ
deriving DecidableEq

/-- backend/services/financial_calculations.py, `calculate_depreciation`
(lines 9-25).  The Python guard `if periods:` is false both for `None` and
for `0`, so a period count of zero falls through to the annual amount.
(In the declining-balance branch Python computes the rate with float
division; the cap through `min` is as in the source.) -/
def calculate_depreciation (asset : FixedAsset) (method : String)
    (periods : Option ℕ) : ℚ :=
  if method = "straight_line" then
    let annual := (asset.purchase_cost - asset.salvage_value) /
      (asset.useful_life_years : ℚ)
    match periods with
    | some p => if p = 0 then annual else annual / 12 * p
    | none => annual
  else if method = "declining_balance" then
    let rate := 2 / (asset.useful_life_years : ℚ)
    let current_value := asset.purchase_cost - asset.accumulated_depreciation
    min (current_value * rate) (current_value - asset.salvage_value)
  else 0

/-- Rounding to cents, half up (how a two-decimal display of a Decimal
quotient is produced); used only to relate the exact monthly depreciation
to its two-decimal rendering. -/
def roundCents (x : ℚ) : ℚ :=
  ((⌊x * 100 + 1 / 2⌋ : ℤ) : ℚ) / 100

/-- A currency row (backend/models.py, `Currency`). -/
structure Currency where
  id : Nat
  code : String
  name : String
  symbol : String
  is_base_currency : Bool
  is_active : Bool
deriving DecidableEq

/-- An exchange-rate row (backend/models.py, `ExchangeRate`). -/
structure ExchangeRate where
  currency_id : Nat
  rate_date : Int
  rate : ℚ
deriving DecidableEq

/-- Floor lookup of backend/api/currencies.py lines 233-241: the most
recent stored rate of the currency dated on or before `d` (`rate_date <= d`
ordered by `rate_date` descending, first row). -/
def latestRateOn (rates : List ExchangeRate) (cid : Nat) (d : Int) :
    Option ExchangeRate :=
  (rates.filter (fun r =>
      decide (r.currency_id = cid) && decide (r.rate_date ≤ d))).foldl
    (fun acc r =>
      match acc with
      | none => some r
      | some b => if b.rate_date < r.rate_date then some r else some b)
    none

/-- Result of the conversion endpoint. -/
inductive ConvertResult where
  | notFound
  | rateMissing (code : String)
  | divisionError
  | ok (converted : ℚ)
deriving DecidableEq

/-- backend/api/currencies.py, `convert_currency` (lines 211-282): resolve
each side independently (1 for the base currency without a lookup, else the
floor-lookup rate, else a 400), then
`converted_amount = amount * (to_rate_value / from_rate_value)`.
A zero from-rate would raise Decimal DivisionByZero, modelled as
`divisionError`. -/
def convert_currency (currencies : List Currency) (rates : List ExchangeRate)
    (amount : ℚ) (from_id to_id : Nat) (d : Int) : ConvertResult :=
  match currencies.find? (fun c => c.id == from_id),
        currencies.find? (fun c => c.id == to_id) with
  | some from_currency, some to_currency =>
    let from_val : Option ℚ :=
      if from_currency.is_base_currency then some 1
      else (latestRateOn rates from_currency.id d).map (·.rate)
    let to_val : Option ℚ :=
      if to_currency.is_base_currency then some 1
      else (latestRateOn rates to_currency.id d).map (·.rate)
    match from_val, to_val with
    | none, _ => .rateMissing from_currency.code
    | some _, none => .rateMissing to_currency.code
    | some fv, some tv =>
      if fv = 0 then .divisionError
      else .ok (amount * (tv / fv))
  | _, _ => .notFound

/-- Result of the currency creation endpoint. -/
inductive CreateCurrencyResult where
  | validationError (msg : String)
  | created (c : Currency)
deriving DecidableEq

/-- A currency creation request; a missing symbol defaults to the code
(currencies.py line 87). -/
structure CurrencyRequest where
  code : String
  name : String
  symbol : Option String
  is_base_currency : Bool
deriving DecidableEq

/-- backend/api/currencies.py, `create_currency` (lines 57-106): required
fields, 3 alphabetic characters, unique upper-cased code, and a request for
a base currency is rejected while some base currency exists; it never
clears an existing flag. -/
def create_currency (currencies : List Currency) (newId : Nat)
    (req : CurrencyRequest) : CreateCurrencyResult × List Currency :=
  if req.code = "" ∨ req.name = "" then
    (.validationError "code and name are required", currencies)
  else if ¬ (req.code.length = 3 ∧ req.code.all Char.isAlpha) then
    (.validationError "Currency code must be 3 alphabetic characters", currencies)
  else if currencies.any (fun c => c.code == req.code.toUpper) then
    (.validationError "Currency with this code already exists", currencies)
  else if req.is_base_currency && currencies.any (·.is_base_currency) then
    (.validationError "A base currency already exists. Deactivate it first.",
      currencies)
  else
    let c : Currency :=
      { id := newId
        code := req.code.toUpper
        name := req.name
        symbol := req.symbol.getD req.code
        is_base_currency := req.is_base_currency
        is_active := true }
    (.created c, currencies ++ [c])

/-- Result of the organization-settings base-currency update. -/
inductive SetBaseResult where
  | validationError (msg : String)
  | ok
deriving DecidableEq

/-- backend/api/organization.py, `update_organization_settings`, the
`base_currency_id` branch (lines 164-175): validate the currency, clear the
flag of the first currently flagged currency when it is a different one,
then set the flag on the requested currency. -/
def set_base_currency (currencies : List Currency) (base_currency_id : Nat) :
    SetBaseResult × List Currency :=
  match currencies.find? (fun c => c.id == base_currency_id) with
  | none => (.validationError "Invalid base currency", currencies)
  | some currency =>
    if ¬ currency.is_active then
      (.validationError "Invalid base currency", currencies)
    else
      let cleared : List Currency :=
        match currencies.find? (·.is_base_currency) with
        | some old =>
          if old.id ≠ currency.id then
            currencies.map (fun c : Currency =>
              if c.id = old.id then { c with is_base_currency := false } else c)
          else currencies
        | none => currencies
      (.ok, cleared.map (fun c : Currency =>
        if c.id = base_currency_id then { c with is_base_currency := true } else c))

/-- At most one currency is flagged as the base currency. -/
def atMostOneBase (currencies : List Currency) : Prop :=
  (currencies.filter (·.is_base_currency)).length ≤ 1

instance (currencies : List Currency) : Decidable (atMostOneBase currencies) := by
  unfold atMostOneBase
  infer_instance

/-! ## Concrete fixtures used by witnesses and counterexamples -/

/-- A balanced two-line request: debit 500 to account 1, credit 500 to
account 2. -/
def req1 : CreateRequest :=
  { entry_date := 0
    description := "Grant received"
    currency_id := 1
    exchange_rate := 1
    lines :=
      [ { account_id := 1, project_id := none, debit_amount := 500,
          credit_amount := 0, line_number := 1 },
        { account_id := 2, project_id := none, debit_amount := 0,
          credit_amount := 500, line_number := 2 } ] }

/-- The entry `create_journal_entry [1, 2] 1 req1` creates. -/
def entry1 : JournalEntry :=
  { id := 1, entry_date := 0, description := "Grant received",
    total_debit := 500, total_credit := 500, currency_id := 1,
    exchange_rate := 1, is_posted := false, posted_at := none }

/-- The lines `create_journal_entry [1, 2] 1 req1` creates. -/
def lines1 : List JournalEntryLine :=
  [ { journal_entry_id := 1, account_id := 1, project_id := none,
      debit_amount := 500, credit_amount := 0, line_number := 1 },
    { journal_entry_id := 1, account_id := 2, project_id := none,
      debit_amount := 0, credit_amount := 500, line_number := 2 } ]

/-- A request whose two lines each carry a debit and a credit at once;
its totals balance (10 = 10). -/
def req6 : CreateRequest :=
  { entry_date := 0
    description := "Both sides on every line"
    currency_id := 1
    exchange_rate := 1
    lines :=
      [ { account_id := 1, project_id := none, debit_amount := 5,
          credit_amount := 5, line_number := 1 },
        { account_id := 2, project_id := none, debit_amount := 5,
          credit_amount := 5, line_number := 2 } ] }

/-- The entry `create_journal_entry [1, 2] 1 req6` creates. -/
def entry6 : JournalEntry :=
  { id := 1, entry_date := 0, description := "Both sides on every line",
    total_debit := 10, total_credit := 10, currency_id := 1,
    exchange_rate := 1, is_posted := false, posted_at := none }

/-- The lines `create_journal_entry [1, 2] 1 req6` creates. -/
def lines6 : List JournalEntryLine :=
  [ { journal_entry_id := 1, account_id := 1, project_id := none,
      debit_amount := 5, credit_amount := 5, line_number := 1 },
    { journal_entry_id := 1, account_id := 2, project_id := none,
      debit_amount := 5, credit_amount := 5, line_number := 2 } ]

/-! ## C1: creation accepts only balanced, nonzero entries of at least
two lines -/

/-- Claim C1: a journal-entry creation request is accepted only if it has
at least 2 lines, the line debit total equals the line credit total with
exact equality, and that total is nonzero; a request violating one of
these conditions is rejected with a validation error; and every accepted
entry stores equal debit and credit totals. -/
theorem create_journal_entry_balance_validation (ids : List Nat)
    (newId : Nat) (req : CreateRequest) :
    (∀ e ls, create_journal_entry ids newId req = .created e ls →
      2 ≤ req.lines.length ∧
      sumDebits req.lines = sumCredits req.lines ∧
      sumDebits req.lines ≠ 0 ∧
      e.total_debit = e.total_credit) ∧
    (req.lines.length < 2 ∨ sumDebits req.lines ≠ sumCredits req.lines ∨
        sumDebits req.lines = 0 →
      ∃ msg, create_journal_entry ids newId req = .validationError msg) := by
  constructor
  · intro e ls h
    unfold create_journal_entry at h
    split_ifs at h with h1 h2 h3 h4 h5
    push_neg at h2 h3
    injection h with he hls
    refine ⟨h2, h3, h4, ?_⟩
    rw [← he]
    exact h3
  · intro hviol
    unfold create_journal_entry
    split_ifs with h1 h2 h3 h4 h5
    · exact ⟨_, rfl⟩
    · exact ⟨_, rfl⟩
    · exact ⟨_, rfl⟩
    · exact ⟨_, rfl⟩
    · exact ⟨_, rfl⟩
    · push_neg at h2 h3
      rcases hviol with hv | hv | hv
      · omega
      · exact (hv h3).elim
      · exact (h4 hv).elim

/-- Witness for C1 on the concrete request `req1`. -/
theorem create_journal_entry_balance_validation_witness :
    2 ≤ req1.lines.length ∧
    sumDebits req1.lines = sumCredits req1.lines ∧
    sumDebits req1.lines ≠ 0 ∧
    entry1.total_debit = entry1.total_credit :=
  (create_journal_entry_balance_validation [1, 2] 1 req1).1 entry1 lines1
    (by
      norm_num [create_journal_entry, sumDebits, sumCredits, req1, entry1,
        lines1]
      all_goals decide)

/-! ## C6: no per-line single-side validation -/

/-- Counterexample to claim C6: the request `req6`, whose every line has
both a nonzero debit and a nonzero credit, is accepted by
`create_journal_entry`, not rejected with a validation error. -/
theorem create_journal_entry_accepts_two_sided_lines :
    (create_journal_entry [1, 2] 1 req6 = .created entry6 lines6) ∧
    (∀ msg, create_journal_entry [1, 2] 1 req6 ≠ .validationError msg) ∧
    (∀ l ∈ req6.lines, l.debit_amount ≠ 0 ∧ l.credit_amount ≠ 0) := by
  have h : create_journal_entry [1, 2] 1 req6 = .created entry6 lines6 := by
    norm_num [create_journal_entry, sumDebits, sumCredits, req6, entry6,
      lines6]
    all_goals decide
  refine ⟨h, ?_, by decide⟩
  intro msg hmsg
  rw [h] at hmsg
  exact CreateResult.noConfusion hmsg

/-- Claim C6 as amended: the creation operation performs no per-line check
on the debit/credit sides.  A request is accepted exactly when its required
fields are present, it has at least two lines, its debit and credit totals
are equal and nonzero, and every referenced account exists - regardless of
how the amounts are distributed inside each line. -/
theorem create_journal_entry_accepts_iff (ids : List Nat) (newId : Nat)
    (req : CreateRequest) :
    (∃ e ls, create_journal_entry ids newId req = .created e ls) ↔
      (req.description ≠ "" ∧ req.lines ≠ [] ∧ 2 ≤ req.lines.length ∧
       sumDebits req.lines = sumCredits req.lines ∧
       sumDebits req.lines ≠ 0 ∧
       ∀ l ∈ req.lines, l.account_id ∈ ids) := by
  unfold create_journal_entry
  split_ifs with h1 h2 h3 h4 h5
  · constructor
    · rintro ⟨e, ls, h⟩
      exact h.elim
    · rintro ⟨hd, hl, -⟩
      rcases h1 with h1 | h1
      · exact (hd h1).elim
      · exact (hl h1).elim
  · constructor
    · rintro ⟨e, ls, h⟩
      exact h.elim
    · intro hcon
      omega
  · constructor
    · rintro ⟨e, ls, h⟩
      exact h.elim
    · intro hcon
      exact (h3 hcon.2.2.2.1).elim
  · constructor
    · rintro ⟨e, ls, h⟩
      exact h.elim
    · intro hcon
      exact (hcon.2.2.2.2.1 h4).elim
  · constructor
    · rintro ⟨e, ls, h⟩
      exact h.elim
    · intro hcon
      rw [List.any_eq_true] at h5
      obtain ⟨l, hl, hacct⟩ := h5
      simp at hacct
      exact (hacct (hcon.2.2.2.2.2 l hl)).elim
  · constructor
    · intro _
      push_neg at h1 h2 h3
      refine ⟨h1.1, h1.2, h2, h3, h4, ?_⟩
      intro l hl
      rw [List.any_eq_true] at h5
      push_neg at h5
      have hthis := h5 l hl
      simp at hthis
      exact hthis
    · intro _
      exact ⟨_, _, rfl⟩

/-- Witness for the amended C6 on the concrete two-sided request `req6`. -/
theorem create_journal_entry_accepts_iff_witness :
    ∃ e ls, create_journal_entry [1, 2] 1 req6 = .created e ls :=
  (create_journal_entry_accepts_iff [1, 2] 1 req6).mpr
    (by
      norm_num [req6, sumDebits, sumCredits]
      all_goals decide)

/-! ## C3 and C10: the posting / deletion state machine -/

/-- Evaluation of `delete_journal_entry` on a draft entry. -/
theorem delete_journal_entry_draft_eq (st : Ledger) (eid : Nat)
    (e : JournalEntry)
    (hfind : st.entries.find? (fun x => x.id == eid) = some e)
    (hp : e.is_posted = false) :
    delete_journal_entry st eid =
      (.ok,
        { st with
          entries := st.entries.filter (fun x => !(x.id == eid)),
          lines := st.lines.filter (fun l => !(l.journal_entry_id == eid)) }) := by
  unfold delete_journal_entry
  rw [hfind]
  simp [hp]

/-- Evaluation of `post_journal_entry` on a draft entry. -/
theorem post_journal_entry_draft_eq (st : Ledger) (eid : Nat) (now : Int)
    (e : JournalEntry)
    (hfind : st.entries.find? (fun x => x.id == eid) = some e)
    (hp : e.is_posted = false) :
    post_journal_entry st eid now =
      (.ok,
        { st with
          entries := st.entries.map (fun x =>
            if x.id = eid then
              { x with is_posted := true, posted_at := some now }
            else x) }) := by
  unfold post_journal_entry
  rw [hfind]
  simp [hp]

/-- Claim C3: posting an already posted entry fails with a state error and
leaves the ledger (hence every balance) unchanged; deleting a posted entry
fails with a state error and leaves the ledger unchanged; deleting a draft
entry succeeds and removes the entry together with all of its lines, while
everything else is kept. -/
theorem journal_entry_state_machine (st : Ledger) (eid : Nat) (now : Int)
    (e : JournalEntry)
    (hfind : st.entries.find? (fun x => x.id == eid) = some e) :
    (e.is_posted = true →
      post_journal_entry st eid now =
        (.stateError "Journal entry already posted", st) ∧
      delete_journal_entry st eid =
        (.stateError "Cannot delete posted journal entry", st)) ∧
    (e.is_posted = false →
      (delete_journal_entry st eid).1 = .ok ∧
      (∀ x ∈ (delete_journal_entry st eid).2.entries, x.id ≠ eid) ∧
      (∀ l ∈ (delete_journal_entry st eid).2.lines,
        l.journal_entry_id ≠ eid) ∧
      (∀ x ∈ st.entries, x.id ≠ eid →
        x ∈ (delete_journal_entry st eid).2.entries) ∧
      (∀ l ∈ st.lines, l.journal_entry_id ≠ eid →
        l ∈ (delete_journal_entry st eid).2.lines) ∧
      (delete_journal_entry st eid).2.accounts = st.accounts) := by
  constructor
  · intro hp
    constructor
    · unfold post_journal_entry
      rw [hfind]
      simp [hp]
    · unfold delete_journal_entry
      rw [hfind]
      simp [hp]
  · intro hp
    rw [delete_journal_entry_draft_eq st eid e hfind hp]
    refine ⟨rfl, ?_, ?_, ?_, ?_, rfl⟩
    · intro x hx
      simp only [List.mem_filter, Bool.not_eq_true', beq_eq_false_iff_ne,
        ne_eq] at hx
      exact hx.2
    · intro l hl
      simp only [List.mem_filter, Bool.not_eq_true', beq_eq_false_iff_ne,
        ne_eq] at hl
      exact hl.2
    · intro x hx hne
      simp only [List.mem_filter, Bool.not_eq_true', beq_eq_false_iff_ne,
        ne_eq]
      exact ⟨hx, hne⟩
    · intro l hl hne
      simp only [List.mem_filter, Bool.not_eq_true', beq_eq_false_iff_ne,
        ne_eq]
      exact ⟨hl, hne⟩

/-- Claim C10: a successful post on a draft entry returns ok, leaves the
accounts and all lines untouched, keeps every other entry as it was, and
replaces the target entry by the same record with only `is_posted` set and
`posted_at` filled; every resulting entry keeps the number, date,
description, totals, currency and exchange rate of the entry it came
from. -/
theorem post_journal_entry_frame (st : Ledger) (eid : Nat) (now : Int)
    (e : JournalEntry)
    (hfind : st.entries.find? (fun x => x.id == eid) = some e)
    (hp : e.is_posted = false) :
    (post_journal_entry st eid now).1 = .ok ∧
    (post_journal_entry st eid now).2.accounts = st.accounts ∧
    (post_journal_entry st eid now).2.lines = st.lines ∧
    (post_journal_entry st eid now).2.entries.length = st.entries.length ∧
    (∀ x ∈ st.entries, x.id ≠ eid →
      x ∈ (post_journal_entry st eid now).2.entries) ∧
    (∀ x ∈ st.entries, x.id = eid →
      { x with is_posted := true, posted_at := some now } ∈
        (post_journal_entry st eid now).2.entries) ∧
    (∀ y ∈ (post_journal_entry st eid now).2.entries, ∃ x ∈ st.entries,
      y.id = x.id ∧ y.entry_date = x.entry_date ∧
      y.description = x.description ∧ y.total_debit = x.total_debit ∧
      y.total_credit = x.total_credit ∧ y.currency_id = x.currency_id ∧
      y.exchange_rate = x.exchange_rate ∧
      (x.id ≠ eid → y = x) ∧
      (x.id = eid → y.is_posted = true ∧ y.posted_at = some now)) := by
  rw [post_journal_entry_draft_eq st eid now e hfind hp]
  refine ⟨rfl, rfl, rfl, by simp, ?_, ?_, ?_⟩
  · intro x hx hne
    simp only [List.mem_map]
    exact ⟨x, hx, by simp [hne]⟩
  · intro x hx heq
    simp only [List.mem_map]
    exact ⟨x, hx, by simp [heq]⟩
  · intro y hy
    simp only [List.mem_map] at hy
    obtain ⟨x, hx, hxy⟩ := hy
    by_cases hid : x.id = eid
    · rw [if_pos hid] at hxy
      refine ⟨x, hx, ?_⟩
      rw [← hxy]
      refine ⟨rfl, rfl, rfl, rfl, rfl, rfl, rfl, ?_, ?_⟩
      · intro hne
        exact (hne hid).elim
      · intro _
        exact ⟨rfl, rfl⟩
    · rw [if_neg hid] at hxy
      refine ⟨x, hx, ?_⟩
      rw [← hxy]
      refine ⟨rfl, rfl, rfl, rfl, rfl, rfl, rfl, fun _ => rfl, ?_⟩
      intro heq
      exact (hid heq).elim

/-- Two accounts used by the concrete ledger fixtures. -/
def acct1 : Account := { id := 1, account_type := .asset, is_active := true }

/-- Second concrete account. -/
def acct2 : Account :=
  { id := 2, account_type := .revenue, is_active := true }

/-- A posted concrete entry. -/
def entryPosted : JournalEntry :=
  { id := 1, entry_date := 10, description := "posted entry",
    total_debit := 500, total_credit := 500, currency_id := 1,
    exchange_rate := 1, is_posted := true, posted_at := some 11 }

/-- A draft concrete entry. -/
def entryDraft : JournalEntry :=
  { id := 2, entry_date := 12, description := "draft entry",
    total_debit := 300, total_credit := 300, currency_id := 1,
    exchange_rate := 1, is_posted := false, posted_at := none }

/-- A concrete ledger with one posted and one draft entry. -/
def st3 : Ledger :=
  { accounts := [acct1, acct2]
    entries := [entryPosted, entryDraft]
    lines :=
      [ { journal_entry_id := 1, account_id := 1, project_id := none,
          debit_amount := 500, credit_amount := 0, line_number := 1 },
        { journal_entry_id := 1, account_id := 2, project_id := none,
          debit_amount := 0, credit_amount := 500, line_number := 2 },
        { journal_entry_id := 2, account_id := 1, project_id := none,
          debit_amount := 300, credit_amount := 0, line_number := 1 },
        { journal_entry_id := 2, account_id := 2, project_id := none,
          debit_amount := 0, credit_amount := 300, line_number := 2 } ] }

/-- Witness for C3 on the concrete ledger `st3`: posting or deleting the
posted entry 1 fails and leaves the state unchanged; deleting the draft
entry 2 succeeds and removes it with its lines. -/
theorem journal_entry_state_machine_witness :
    post_journal_entry st3 1 99 =
      (.stateError "Journal entry already posted", st3) ∧
    delete_journal_entry st3 1 =
      (.stateError "Cannot delete posted journal entry", st3) ∧
    (delete_journal_entry st3 2).1 = .ok ∧
    (∀ x ∈ (delete_journal_entry st3 2).2.entries, x.id ≠ 2) ∧
    (∀ l ∈ (delete_journal_entry st3 2).2.lines,
      l.journal_entry_id ≠ 2) := by
  have hposted :=
    (journal_entry_state_machine st3 1 99 entryPosted (by decide)).1
      (by decide)
  have hdraft :=
    (journal_entry_state_machine st3 2 0 entryDraft (by decide)).2
      (by decide)
  exact ⟨hposted.1, hposted.2, hdraft.1, hdraft.2.1, hdraft.2.2.1⟩

/-- Witness for C10 on the concrete ledger `st3`: posting the draft entry 2
succeeds and leaves lines and accounts untouched. -/
theorem post_journal_entry_frame_witness :
    (post_journal_entry st3 2 99).1 = .ok ∧
    (post_journal_entry st3 2 99).2.lines = st3.lines ∧
    (post_journal_entry st3 2 99).2.accounts = st3.accounts := by
  have h := post_journal_entry_frame st3 2 99 entryDraft (by decide) (by decide)
  exact ⟨h.1, h.2.2.1, h.2.1⟩

/-! ## C5: the two budget-variance sign conventions -/

/-- Counterexample to claim C5: at budgeted 100 and actual 60 the service
`calculate_budget_variance` returns variance -40, not
budgeted - actual = 40 as the claim states. -/
theorem calculate_budget_variance_sign_counterexample :
    (calculate_budget_variance 60 100).variance_amount ≠ 100 - 60 ∧
    (calculate_budget_variance 60 100).variance_amount = -40 := by
  constructor <;> norm_num [calculate_budget_variance]

/-- Claim C5 as amended: the service `calculate_budget_variance` computes
`variance = actual - budgeted` and classifies favorable exactly when that
variance is negative, while the budget-comparison report computes
`variance = budgeted - actual` and classifies favorable exactly when that
variance is positive; the two variances are negatives of each other, both
paths classify a strict underspend as favorable (and breakeven as
unfavorable), and each percentage divides its own variance by the budget
times 100. -/
theorem budget_variance_conventions (a b : ℚ) :
    (calculate_budget_variance a b).variance_amount = a - b ∧
    ((calculate_budget_variance a b).variance_type = "favorable" ↔ a < b) ∧
    (budget_comparison_line b a).variance = b - a ∧
    ((budget_comparison_line b a).variance_type = "favorable" ↔ a < b) ∧
    (calculate_budget_variance a b).variance_amount =
      -(budget_comparison_line b a).variance ∧
    (b ≠ 0 → (calculate_budget_variance a b).variance_percentage =
      (a - b) / b * 100) ∧
    (0 < b → (budget_comparison_line b a).variance_percentage =
      (b - a) / b * 100) := by
  unfold calculate_budget_variance budget_comparison_line
  refine ⟨rfl, ?_, rfl, ?_, by ring, ?_, ?_⟩
  · simp only [sub_neg]
    split_ifs with h
    · exact iff_of_true rfl h
    · exact iff_of_false (by decide) h
  · simp only [sub_pos]
    split_ifs with h
    · exact iff_of_true rfl h
    · exact iff_of_false (by decide) h
  · intro hb
    simp only [if_pos hb]
  · intro hb
    simp only [if_pos hb]

/-- Witness for the amended C5 at budgeted 100, actual 60. -/
theorem budget_variance_conventions_witness :
    (calculate_budget_variance 60 100).variance_amount = 60 - 100 ∧
    ((calculate_budget_variance 60 100).variance_type = "favorable" ↔
      (60 : ℚ) < 100) ∧
    (calculate_budget_variance 60 100).variance_percentage =
      (60 - 100) / 100 * 100 ∧
    (budget_comparison_line 100 60).variance_percentage =
      (100 - 60) / 100 * 100 := by
  have h := budget_variance_conventions 60 100
  exact ⟨h.1, h.2.1, h.2.2.2.2.2.1 (by norm_num),
    h.2.2.2.2.2.2 (by norm_num)⟩

/-! ## C8: straight-line depreciation -/

/-- The fixed asset of the scenario: cost 12000, salvage 2000,
life 5 years. -/
def asset8 : FixedAsset :=
  { purchase_cost := 12000, salvage_value := 2000, useful_life_years := 5,
    accumulated_depreciation := 0 }

/-- Counterexample to claim C8: for the scenario asset the monthly
(periods = 1) depreciation is 2000 / 12 = 500 / 3 = 166.666..., which is
not the claimed 166.67. -/
theorem calculate_depreciation_monthly_not_16667 :
    calculate_depreciation asset8 "straight_line" (some 1) = 500 / 3 ∧
    (500 / 3 : ℚ) ≠ 16667 / 100 := by
  constructor
  · norm_num [calculate_depreciation, asset8]
  · norm_num

/-- Claim C8 as amended: under the straight-line method the calculation
returns (cost - salvage) / useful_life_years annually and
annual / 12 * periods for a nonzero period count; for the scenario asset
the annual depreciation is exactly 2000 and the monthly (periods = 1)
depreciation is exactly 2000 / 12 = 500 / 3, which renders as 166.67 only
after rounding to cents. -/
theorem straight_line_depreciation (asset : FixedAsset) (p : ℕ)
    (hp : p ≠ 0) :
    calculate_depreciation asset "straight_line" none =
      (asset.purchase_cost - asset.salvage_value) /
        (asset.useful_life_years : ℚ) ∧
    calculate_depreciation asset "straight_line" (some p) =
      (asset.purchase_cost - asset.salvage_value) /
        (asset.useful_life_years : ℚ) / 12 * p ∧
    calculate_depreciation asset8 "straight_line" none = 2000 ∧
    calculate_depreciation asset8 "straight_line" (some 1) = 500 / 3 ∧
    roundCents (calculate_depreciation asset8 "straight_line" (some 1)) =
      16667 / 100 := by
  refine ⟨rfl, ?_, ?_, ?_, ?_⟩
  · simp [calculate_depreciation, hp]
  · norm_num [calculate_depreciation, asset8]
  · norm_num [calculate_depreciation, asset8]
  · norm_num [calculate_depreciation, asset8, roundCents]

/-- Witness for the amended C8 at the scenario asset with one period. -/
theorem straight_line_depreciation_witness :
    calculate_depreciation asset8 "straight_line" none =
      (asset8.purchase_cost - asset8.salvage_value) /
        (asset8.useful_life_years : ℚ) ∧
    calculate_depreciation asset8 "straight_line" (some 1) =
      (asset8.purchase_cost - asset8.salvage_value) /
        (asset8.useful_life_years : ℚ) / 12 * 1 := by
  have h := straight_line_depreciation asset8 1 (by decide)
  exact ⟨h.1, h.2.1⟩

/-! ## C4: grant utilization -/

/-- The scenario grant: amount 10000 on project 1, period day 0 to
day 100. -/
def grant4 : Grant :=
  { id := 1, project_id := some 1, amount := 10000, start_date := 0,
    end_date := 100 }

/-- A posted 4000 expense entry against project 1 dated day 200, outside
the grant period. -/
def entryLate : JournalEntry :=
  { id := 20, entry_date := 200, description := "late project expense",
    total_debit := 4000, total_credit := 4000, currency_id := 1,
    exchange_rate := 1, is_posted := true, posted_at := some 200 }

/-- A ledger whose only project expense lies outside the grant period. -/
def stC4 : Ledger :=
  { accounts := [acct1, acct2]
    entries := [entryLate]
    lines :=
      [ { journal_entry_id := 20, account_id := 1, project_id := some 1,
          debit_amount := 4000, credit_amount := 0, line_number := 1 },
        { journal_entry_id := 20, account_id := 2, project_id := none,
          debit_amount := 0, credit_amount := 4000, line_number := 2 } ] }

/-- The utilization record the service returns on `stC4`. -/
def util4 : GrantUtilization :=
  { grant_amount := 10000, utilized_amount := 4000,
    remaining_balance := 6000, utilization_percentage := 40,
    status := "on_track" }

/-- Counterexample to claim C4: on `stC4` the service counts the posted
4000 expense although its entry date 200 lies outside the grant period
0..100; the sum the claim describes (restricted to the period) is 0. -/
theorem calculate_grant_utilization_ignores_period :
    calculate_grant_utilization stC4 [grant4] 1 = some util4 ∧
    util4.utilized_amount = 4000 ∧
    utilizedInPeriod stC4 grant4 = 0 := by
  refine ⟨?_, rfl, ?_⟩
  · simp [calculate_grant_utilization, postedProjectDebits, linePosted,
      stC4, grant4, util4, entryLate, List.filter_cons]
    norm_num
  · simp [utilizedInPeriod, stC4, grant4, entryLate, List.filter_cons]

/-- Claim C4 as amended: for every found grant the service returns
utilized = the sum of debit amounts of posted lines on the grant project
with no date restriction (the date filter exists only in the grants list
endpoint), utilization_percentage = utilized / amount * 100 for a positive
amount, remaining = amount - utilized, and status over_budget exactly when
the remaining balance is negative, else on_track. -/
theorem calculate_grant_utilization_formulas (st : Ledger)
    (grants : List Grant) (gid : Nat) (g : Grant)
    (hfind : grants.find? (fun x => x.id == gid) = some g) :
    ∃ u, calculate_grant_utilization st grants gid = some u ∧
      u.grant_amount = g.amount ∧
      u.utilized_amount = postedProjectDebits st g.project_id ∧
      u.remaining_balance = g.amount - u.utilized_amount ∧
      u.utilization_percentage =
        (if g.amount > 0 then u.utilized_amount / g.amount * 100 else 0) ∧
      u.status =
        (if u.remaining_balance < 0 then "over_budget" else "on_track") := by
  unfold calculate_grant_utilization
  rw [hfind]
  exact ⟨_, rfl, rfl, rfl, rfl, rfl, rfl⟩

/-- A posted 4000 expense entry against project 1 dated day 50, inside the
grant period. -/
def entryIn : JournalEntry :=
  { id := 21, entry_date := 50, description := "project expense",
    total_debit := 4000, total_credit := 4000, currency_id := 1,
    exchange_rate := 1, is_posted := true, posted_at := some 50 }

/-- The scenario ledger: one posted in-period 4000 expense against the
grant project. -/
def stC4w : Ledger :=
  { accounts := [acct1, acct2]
    entries := [entryIn]
    lines :=
      [ { journal_entry_id := 21, account_id := 1, project_id := some 1,
          debit_amount := 4000, credit_amount := 0, line_number := 1 },
        { journal_entry_id := 21, account_id := 2, project_id := none,
          debit_amount := 0, credit_amount := 4000, line_number := 2 } ] }

/-- Witness for the amended C4 on the scenario: a 10000 grant with one
posted in-period 4000 expense yields utilization 40 percent, remaining
6000, status on_track. -/
theorem calculate_grant_utilization_formulas_witness :
    ∃ u, calculate_grant_utilization stC4w [grant4] 1 = some u ∧
      u.utilization_percentage = 40 ∧
      u.remaining_balance = 6000 ∧
      u.status = "on_track" := by
  obtain ⟨u, hu, ham, hutil, hrem, hpct, hstat⟩ :=
    calculate_grant_utilization_formulas stC4w [grant4] 1 grant4 (by decide)
  have hppd : postedProjectDebits stC4w (some 1) = 4000 := by
    simp [postedProjectDebits, linePosted, stC4w, entryIn, List.filter_cons]
  have hutil4 : u.utilized_amount = 4000 := by
    rw [hutil]
    show postedProjectDebits stC4w (some 1) = 4000
    exact hppd
  refine ⟨u, hu, ?_, ?_, ?_⟩
  · rw [hpct, hutil4]
    show (if (10000 : ℚ) > 0 then 4000 / 10000 * 100 else 0) = 40
    norm_num
  · rw [hrem, hutil4]
    show (10000 : ℚ) - 4000 = 6000
    norm_num
  · rw [hstat, hrem, hutil4]
    show (if (10000 : ℚ) - 4000 < 0 then "over_budget" else "on_track") =
      "on_track"
    norm_num

/-! ## C7: same-currency conversion is the identity -/

/-- Claim C7: whenever the conversion endpoint succeeds in converting an
amount from a currency to itself (any date), the converted amount equals
the input amount. -/
theorem convert_currency_identity (currencies : List Currency)
    (rates : List ExchangeRate) (amount : ℚ) (cid : Nat) (d : Int) (v : ℚ)
    (h : convert_currency currencies rates amount cid cid d = .ok v) :
    v = amount := by
  unfold convert_currency at h
  cases hfind : currencies.find? (fun c => c.id == cid) with
  | none =>
    rw [hfind] at h
    exact ConvertResult.noConfusion h
  | some c =>
    rw [hfind] at h
    dsimp only at h
    cases hval : (if c.is_base_currency then some (1 : ℚ)
        else (latestRateOn rates c.id d).map (·.rate)) with
    | none =>
      rw [hval] at h
      exact ConvertResult.noConfusion h
    | some fv =>
      rw [hval] at h
      dsimp only at h
      split_ifs at h with hz
      injection h with hv
      rw [← hv, div_self hz, mul_one]

/-- The base currency used by the currency fixtures. -/
def curUSD : Currency :=
  { id := 1, code := "USD", name := "US Dollar", symbol := "$",
    is_base_currency := true, is_active := true }

/-- A non-base currency used by the currency fixtures. -/
def curEUR : Currency :=
  { id := 2, code := "EUR", name := "Euro", symbol := "E",
    is_base_currency := false, is_active := true }

/-- A stored rate for the non-base currency. -/
def rateEUR : ExchangeRate := { currency_id := 2, rate_date := 5, rate := 3 / 2 }

/-- Witness for C7: converting 7 EUR to EUR on day 9 through the stored
day-5 rate succeeds and the identity theorem applies. -/
theorem convert_currency_identity_witness :
    convert_currency [curUSD, curEUR] [rateEUR] 7 2 2 9 = .ok 7 ∧
    (7 : ℚ) = 7 := by
  have heval : convert_currency [curUSD, curEUR] [rateEUR] 7 2 2 9 = .ok 7 := by
    simp [convert_currency, latestRateOn, curUSD, curEUR, rateEUR,
      List.filter_cons]
  exact ⟨heval,
    convert_currency_identity [curUSD, curEUR] [rateEUR] 7 2 9 7 heval⟩

/-! ## C9: uniqueness of the base-currency flag -/

/-- In a list whose keys are distinct, at most one element can satisfy a
predicate that forces a fixed key. -/
theorem filter_length_le_one_of_key {α : Type} (l : List α) (p : α → Bool)
    (key : α → Nat) (k : Nat) (hnodup : (l.map key).Nodup)
    (hkey : ∀ x ∈ l, p x = true → key x = k) :
    (l.filter p).length ≤ 1 := by
  induction l with
  | nil => simp
  | cons a t ih =>
    rw [List.map_cons, List.nodup_cons] at hnodup
    by_cases hpa : p a = true
    · rw [List.filter_cons_of_pos hpa]
      have hka : key a = k := hkey a (List.mem_cons_self a t) hpa
      have hfil : t.filter p = [] := by
        rw [List.filter_eq_nil_iff]
        intro x hx hpx
        have hkx : key x = k := hkey x (List.mem_cons_of_mem a hx) hpx
        have hmem : key a ∈ List.map key t := by
          rw [hka, ← hkx]
          exact List.mem_map_of_mem key hx
        exact absurd hmem hnodup.1
      rw [hfil]
      simp
    · rw [List.filter_cons_of_neg hpa]
      exact ih hnodup.2 (fun x hx hp => hkey x (List.mem_cons_of_mem a hx) hp)

/-- Mapping a key over a list is unchanged by a key-preserving rewrite of
the elements. -/
theorem map_key_of_preserve {α : Type} (l : List α) (f : α → α)
    (key : α → Nat) (h : ∀ x, key (f x) = key x) :
    (l.map f).map key = l.map key := by
  induction l with
  | nil => rfl
  | cons a t ih => simp [h, ih]

/-- When at most one currency is flagged and `find?` returns `old`, every
flagged currency is `old`. -/
theorem base_flag_unique (cs : List Currency) (old : Currency)
    (hinv : atMostOneBase cs)
    (hfind : cs.find? (·.is_base_currency) = some old) :
    ∀ x ∈ cs, x.is_base_currency = true → x = old := by
  intro x hx hflag
  have hold_mem := List.mem_of_find?_eq_some hfind
  have hold_flag : old.is_base_currency = true := List.find?_some hfind
  have hxf : x ∈ cs.filter (·.is_base_currency) :=
    List.mem_filter.mpr ⟨hx, hflag⟩
  have holdf : old ∈ cs.filter (·.is_base_currency) :=
    List.mem_filter.mpr ⟨hold_mem, hold_flag⟩
  unfold atMostOneBase at hinv
  cases hfl : cs.filter (·.is_base_currency) with
  | nil =>
    rw [hfl] at hxf
    exact absurd hxf (List.not_mem_nil x)
  | cons a t =>
    rw [hfl] at hinv hxf holdf
    have ht : t = [] := by
      rw [List.length_cons] at hinv
      rw [← List.length_eq_zero]
      omega
    subst ht
    rw [List.mem_singleton] at hxf holdf
    rw [hxf, holdf]

/-- Claim C9: given distinct currency ids and at most one flagged base
currency, creating a currency preserves the at-most-one-base invariant
(a second base is rejected, not merged), and the organization-settings
base-currency update preserves it as well; when the update succeeds,
exactly the requested currency carries the flag afterwards - the previous
flag is cleared, so two currencies are never flagged simultaneously. -/
theorem base_currency_flag_invariant (cs : List Currency) (newId : Nat)
    (req : CurrencyRequest) (bid : Nat)
    (hnodup : (cs.map (·.id)).Nodup) (hinv : atMostOneBase cs) :
    atMostOneBase (create_currency cs newId req).2 ∧
    atMostOneBase (set_base_currency cs bid).2 ∧
    ((set_base_currency cs bid).1 = .ok →
      ∀ c ∈ (set_base_currency cs bid).2,
        (c.is_base_currency = true ↔ c.id = bid)) := by
  have hp_set : ∀ x : Currency,
      ((fun c : Currency => if c.id = bid then
        { c with is_base_currency := true } else c) x).id = x.id := by
    intro x
    dsimp only
    split_ifs <;> rfl
  refine ⟨?_, ?_⟩
  · -- create_currency preserves the invariant
    unfold create_currency
    split_ifs with h1 h2 h3 h4
    all_goals try exact hinv
    dsimp only
    unfold atMostOneBase at hinv ⊢
    rw [List.filter_append]
    by_cases hb : req.is_base_currency = true
    · have hanyf : cs.any (·.is_base_currency) = false := by
        cases hany : cs.any (·.is_base_currency)
        · rfl
        · exact absurd (by rw [Bool.and_eq_true]; exact ⟨hb, hany⟩) h4
      have hnil : cs.filter (·.is_base_currency) = [] := by
        rw [List.filter_eq_nil_iff]
        intro x hx hpx
        rw [List.any_eq_false] at hanyf
        exact hanyf x hx hpx
      rw [hnil]
      simp [List.filter_cons, hb]
    · rw [Bool.not_eq_true] at hb
      simpa [List.filter_cons, hb] using hinv
  · -- set_base_currency: invariant and exact-flag characterisation
    unfold set_base_currency
    cases hfindc : cs.find? (fun c => c.id == bid) with
    | none =>
      dsimp only
      exact ⟨hinv, fun hok => SetBaseResult.noConfusion hok⟩
    | some currency =>
      dsimp only
      by_cases hact : currency.is_active = true
      · rw [if_neg (not_not_intro hact)]
        have hcid : currency.id = bid := by
          have hbeq := List.find?_some hfindc
          simpa using hbeq
        cases hbase : cs.find? (·.is_base_currency) with
        | none =>
          dsimp only
          have hnoflag : ∀ x ∈ cs, ¬ x.is_base_currency = true :=
            List.find?_eq_none.mp hbase
          have hiff : ∀ c ∈ cs.map (fun c : Currency =>
              if c.id = bid then { c with is_base_currency := true } else c),
              (c.is_base_currency = true ↔ c.id = bid) := by
            intro y hy
            rw [List.mem_map] at hy
            obtain ⟨x, hx, rfl⟩ := hy
            by_cases hid : x.id = bid
            · rw [if_pos hid]
              exact iff_of_true rfl hid
            · rw [if_neg hid]
              exact iff_of_false (hnoflag x hx) hid
          have hids : (List.map (·.id) (cs.map (fun c : Currency =>
              if c.id = bid then { c with is_base_currency := true }
              else c))).Nodup := by
            rw [map_key_of_preserve cs _ _ hp_set]
            exact hnodup
          refine ⟨?_, fun _ => hiff⟩
          exact filter_length_le_one_of_key _ _ (·.id) bid hids
            (fun y hy hf => (hiff y hy).mp hf)
        | some old =>
          dsimp only
          have hOnly := base_flag_unique cs old hinv hbase
          have hp_clear : ∀ x : Currency,
              ((fun c : Currency => if c.id = old.id then
                { c with is_base_currency := false } else c) x).id = x.id := by
            intro x
            dsimp only
            split_ifs <;> rfl
          by_cases hdiff : old.id ≠ currency.id
          · rw [if_pos hdiff]
            have hiff : ∀ c ∈ (cs.map (fun c : Currency =>
                if c.id = old.id then { c with is_base_currency := false }
                else c)).map (fun c : Currency =>
                if c.id = bid then { c with is_base_currency := true }
                else c),
                (c.is_base_currency = true ↔ c.id = bid) := by
              intro y hy
              rw [List.mem_map] at hy
              obtain ⟨z, hz, rfl⟩ := hy
              rw [List.mem_map] at hz
              obtain ⟨x, hx, rfl⟩ := hz
              by_cases hco : x.id = old.id
              · rw [if_pos hco]
                dsimp only
                by_cases hid : x.id = bid
                · rw [if_pos hid]
                  exact iff_of_true rfl hid
                · rw [if_neg hid]
                  exact iff_of_false (by simp) hid
              · rw [if_neg hco]
                by_cases hid : x.id = bid
                · rw [if_pos hid]
                  exact iff_of_true rfl hid
                · rw [if_neg hid]
                  refine iff_of_false ?_ hid
                  intro hf
                  exact hco (by rw [hOnly x hx hf])
            have hids : (List.map (·.id) ((cs.map (fun c : Currency =>
                if c.id = old.id then { c with is_base_currency := false }
                else c)).map (fun c : Currency =>
                if c.id = bid then { c with is_base_currency := true }
                else c))).Nodup := by
              rw [map_key_of_preserve _ _ _ hp_set,
                map_key_of_preserve cs _ _ hp_clear]
              exact hnodup
            refine ⟨?_, fun _ => hiff⟩
            exact filter_length_le_one_of_key _ _ (·.id) bid hids
              (fun y hy hf => (hiff y hy).mp hf)
          · rw [if_neg hdiff]
            push_neg at hdiff
            have hiff : ∀ c ∈ cs.map (fun c : Currency =>
                if c.id = bid then { c with is_base_currency := true }
                else c),
                (c.is_base_currency = true ↔ c.id = bid) := by
              intro y hy
              rw [List.mem_map] at hy
              obtain ⟨x, hx, rfl⟩ := hy
              by_cases hid : x.id = bid
              · rw [if_pos hid]
                exact iff_of_true rfl hid
              · rw [if_neg hid]
                refine iff_of_false ?_ hid
                intro hf
                apply hid
                rw [hOnly x hx hf, hdiff, hcid]
            have hids : (List.map (·.id) (cs.map (fun c : Currency =>
                if c.id = bid then { c with is_base_currency := true }
                else c))).Nodup := by
              rw [map_key_of_preserve cs _ _ hp_set]
              exact hnodup
            refine ⟨?_, fun _ => hiff⟩
            exact filter_length_le_one_of_key _ _ (·.id) bid hids
              (fun y hy hf => (hiff y hy).mp hf)
      · rw [if_pos hact]
        exact ⟨hinv, fun hok => SetBaseResult.noConfusion hok⟩

/-- Witness for C9 on the concrete state [USD base, EUR]: creating a
second base currency preserves the invariant (by rejection), and switching
the base to EUR flags exactly EUR. -/
theorem base_currency_flag_invariant_witness :
    atMostOneBase (create_currency [curUSD, curEUR] 3
      { code := "GBP", name := "Pound", symbol := none,
        is_base_currency := true }).2 ∧
    atMostOneBase (set_base_currency [curUSD, curEUR] 2).2 ∧
    ((set_base_currency [curUSD, curEUR] 2).1 = .ok →
      ∀ c ∈ (set_base_currency [curUSD, curEUR] 2).2,
        (c.is_base_currency = true ↔ c.id = 2)) := by
  exact base_currency_flag_invariant [curUSD, curEUR] 3
    { code := "GBP", name := "Pound", symbol := none,
      is_base_currency := true } 2 (by decide) (by decide)

/-! ## C2: the trial balance columns -/

/-- Sum of a pointwise difference splits into a difference of sums. -/
theorem sum_map_sub {α : Type} (l : List α) (f g : α → ℚ) :
    (l.map (fun x => f x - g x)).sum = (l.map f).sum - (l.map g).sum := by
  induction l with
  | nil => simp
  | cons a t ih =>
    simp only [List.map_cons, List.sum_cons, ih]
    ring

/-- The sum over a filter by a disjunction of two pointwise exclusive
predicates splits into the two filtered sums. -/
theorem sum_filter_or {α : Type} (p q : α → Bool) (f : α → ℚ) (l : List α)
    (h : ∀ x ∈ l, ¬(p x = true ∧ q x = true)) :
    ((l.filter (fun x => p x || q x)).map f).sum =
      ((l.filter p).map f).sum + ((l.filter q).map f).sum := by
  induction l with
  | nil => simp
  | cons a t ih =>
    have ha := h a (List.mem_cons_self a t)
    have ih2 := ih (fun x hx => h x (List.mem_cons_of_mem a hx))
    rw [List.filter_cons, List.filter_cons, List.filter_cons]
    by_cases hp : p a = true
    · have hq : q a = false := by
        cases hqv : q a
        · rfl
        · exact absurd ⟨hp, hqv⟩ ha
      simp only [hp, hq, Bool.true_or, if_pos, if_true, if_false,
        Bool.false_eq_true, List.map_cons, List.sum_cons, ih2]
      ring
    · rw [Bool.not_eq_true] at hp
      cases hq : q a
      · simp only [hp, hq, Bool.or_self, Bool.false_eq_true, if_false, ih2]
      · simp only [hp, hq, Bool.or_true, if_true, Bool.false_eq_true,
          if_false, List.map_cons, List.sum_cons, ih2]
        ring

/-- Summing fiber sums over distinct keys equals the sum over the elements
whose key occurs among the keys. -/
theorem sum_fiberwise_by_key {α : Type} (keys : List Nat) (key : α → Nat)
    (f : α → ℚ) (l : List α) (hnodup : keys.Nodup) :
    (keys.map (fun k =>
      ((l.filter (fun x => decide (key x = k))).map f).sum)).sum =
      ((l.filter (fun x => decide (key x ∈ keys))).map f).sum := by
  induction keys with
  | nil => simp
  | cons k ks ih =>
    rw [List.nodup_cons] at hnodup
    rw [List.map_cons, List.sum_cons, ih hnodup.2]
    have hpred : (fun x => decide (key x ∈ k :: ks)) =
        (fun x => decide (key x = k) || decide (key x ∈ ks)) := by
      funext x
      simp [List.mem_cons]
    rw [hpred, sum_filter_or]
    intro x _ hx
    obtain ⟨h1, h2⟩ := hx
    rw [decide_eq_true_eq] at h1 h2
    exact hnodup.1 (h1 ▸ h2)

/-- The debit column minus the credit column of a trial-balance row equals
the net balance that produced it. -/
theorem normalSideCols_sub (t : AccountType) (net : ℚ) :
    (normalSideCols t net).1 - (normalSideCols t net).2 = net := by
  have habs1 : ¬ net ≥ 0 → -|net| = net := fun hn => by
    rw [abs_of_neg (by linarith)]
    ring
  have habs2 : net ≤ 0 → -|net| = net := fun hn => by
    rw [abs_of_nonpos hn]
    ring
  cases t <;> dsimp only [normalSideCols] <;> split_ifs with h <;>
    simp only [zero_sub, sub_zero] <;>
    first
      | rfl
      | exact habs1 h
      | exact habs2 h

/-- The contribution of one account row (0 when the row is omitted) equals
the net balance of the account over all its lines. -/
theorem trialBalanceRowOf_sub (lines : List JournalEntryLine) (a : Account) :
    (match trialBalanceRowOf lines a with
     | some r => r.debit_amount - r.credit_amount
     | none => (0 : ℚ)) =
    accountDebitSum lines a.id - accountCreditSum lines a.id := by
  unfold trialBalanceRowOf
  dsimp only
  split_ifs with h
  · exact normalSideCols_sub a.account_type _
  · push_neg at h
    rw [← normalSideCols_sub a.account_type
      (accountDebitSum lines a.id - accountCreditSum lines a.id), h.1, h.2]
    ring

/-- Column difference of the produced rows equals the sum of the account
net balances. -/
theorem rows_sum_sub (lines : List JournalEntryLine) (as : List Account) :
    ((as.filterMap (trialBalanceRowOf lines)).map (·.debit_amount)).sum -
      ((as.filterMap (trialBalanceRowOf lines)).map (·.credit_amount)).sum =
    (as.map (fun a =>
      accountDebitSum lines a.id - accountCreditSum lines a.id)).sum := by
  induction as with
  | nil => simp
  | cons a t ih =>
    rw [List.filterMap_cons, List.map_cons, List.sum_cons]
    cases hrow : trialBalanceRowOf lines a with
    | none =>
      have h0 := trialBalanceRowOf_sub lines a
      rw [hrow] at h0
      dsimp only at h0
      dsimp only
      rw [← h0]
      simpa using ih
    | some r =>
      have hr := trialBalanceRowOf_sub lines a
      rw [hrow] at hr
      dsimp only at hr
      dsimp only
      simp only [List.map_cons, List.sum_cons]
      linear_combination hr + ih

/-- The debit total minus the credit total of the trial balance equals the
sum of the per-account net balances over the active accounts. -/
theorem trial_balance_diff (st : Ledger) (as_of : Int) :
    trial_balance_total_debit st as_of - trial_balance_total_credit st as_of =
    ((st.accounts.filter (·.is_active)).map (fun a =>
      accountDebitSum st.lines a.id - accountCreditSum st.lines a.id)).sum := by
  unfold trial_balance_total_debit trial_balance_total_credit
    trial_balance_rows
  exact rows_sum_sub st.lines (st.accounts.filter (·.is_active))

/-- In a well-formed ledger whose entries are all balanced, the summed
per-key line nets vanish. -/
theorem net_of_account_fibers (st : Ledger) (h : LedgerWellFormed st) :
    ((st.accounts.filter (·.is_active)).map (fun a =>
      accountDebitSum st.lines a.id - accountCreditSum st.lines a.id)).sum =
      0 := by
  obtain ⟨hacc, hent, hcover, hentcover, hbal⟩ := h
  -- rewrite each account net as a fiber sum over its lines
  have hfib : ∀ a : Account,
      accountDebitSum st.lines a.id - accountCreditSum st.lines a.id =
      ((st.lines.filter (fun l => decide (l.account_id = a.id))).map
        (fun l => l.debit_amount - l.credit_amount)).sum := by
    intro a
    unfold accountDebitSum accountCreditSum
    rw [sum_map_sub]
  have hstep1 :
      ((st.accounts.filter (·.is_active)).map (fun a =>
        accountDebitSum st.lines a.id - accountCreditSum st.lines a.id)).sum =
      (((st.accounts.filter (·.is_active)).map (·.id)).map (fun k =>
        ((st.lines.filter (fun l => decide (l.account_id = k))).map
          (fun l => l.debit_amount - l.credit_amount)).sum)).sum := by
    rw [List.map_map]
    congr 1
    apply List.map_congr_left
    intro a _
    exact hfib a
  have hnodup_active :
      ((st.accounts.filter (·.is_active)).map (·.id)).Nodup := by
    have hsub : ((st.accounts.filter (·.is_active)).map (·.id)).Sublist
        (st.accounts.map (·.id)) :=
      (List.filter_sublist st.accounts).map (·.id)
    exact hacc.sublist hsub
  have hcov1 : st.lines.filter (fun l =>
      decide (l.account_id ∈ (st.accounts.filter (·.is_active)).map (·.id)))
      = st.lines := by
    rw [List.filter_eq_self]
    intro l hl
    rw [decide_eq_true_eq]
    obtain ⟨a, ha, haid, hact⟩ := hcover l hl
    rw [← haid]
    exact List.mem_map_of_mem (·.id) (List.mem_filter.mpr ⟨ha, hact⟩)
  have hstep2 := sum_fiberwise_by_key
    ((st.accounts.filter (·.is_active)).map (·.id)) (·.account_id)
    (fun l => l.debit_amount - l.credit_amount) st.lines hnodup_active
  rw [hstep1, hstep2, hcov1]
  -- now regroup the total line net by journal entry
  have hcov2 : st.lines.filter (fun l =>
      decide (l.journal_entry_id ∈ st.entries.map (·.id))) = st.lines := by
    rw [List.filter_eq_self]
    intro l hl
    rw [decide_eq_true_eq]
    obtain ⟨e, he, heid⟩ := hentcover l hl
    rw [← heid]
    exact List.mem_map_of_mem (·.id) he
  have hstep3 := sum_fiberwise_by_key (st.entries.map (·.id))
    (·.journal_entry_id) (fun l => l.debit_amount - l.credit_amount)
    st.lines hent
  rw [← hcov2, ← hstep3]
  apply List.sum_eq_zero
  intro x hx
  rw [List.mem_map] at hx
  obtain ⟨k, hk, rfl⟩ := hx
  rw [List.mem_map] at hk
  obtain ⟨e, he, rfl⟩ := hk
  rw [sum_map_sub]
  have hb := hbal e he
  unfold entryLineDebits entryLineCredits at hb
  rw [hb]
  ring

/-- Claim C2 as amended: for a well-formed ledger state - distinct account
and entry ids, every line on an existing active account and an existing
entry, and every entry (posted or not) balanced on its lines - the trial
balance columns agree exactly for any date, hence within 0.01.  (The
posted/date conditions of the query sit in a LEFT OUTER JOIN ON clause and
do not restrict the sums, so balance of the posted entries alone is not
enough; see the counterexample.) -/
theorem trial_balance_balanced (st : Ledger) (as_of : Int)
    (h : LedgerWellFormed st) :
    trial_balance_total_debit st as_of - trial_balance_total_credit st as_of
      = 0 ∧
    |trial_balance_total_debit st as_of -
      trial_balance_total_credit st as_of| < 1 / 100 := by
  have hz : trial_balance_total_debit st as_of -
      trial_balance_total_credit st as_of = 0 := by
    rw [trial_balance_diff]
    exact net_of_account_fibers st h
  refine ⟨hz, ?_⟩
  rw [hz]
  norm_num

/-- A ledger with a single unbalanced draft entry on an active account:
its posted entries (there are none) are all balanced, yet the trial
balance is off by 100. -/
def stC2 : Ledger :=
  { accounts := [acct1]
    entries :=
      [ { id := 30, entry_date := 0, description := "unbalanced draft",
          total_debit := 100, total_credit := 0, currency_id := 1,
          exchange_rate := 1, is_posted := false, posted_at := none } ]
    lines :=
      [ { journal_entry_id := 30, account_id := 1, project_id := none,
          debit_amount := 100, credit_amount := 0, line_number := 1 } ] }

/-- Counterexample to claim C2: in `stC2` every posted journal entry is
balanced (vacuously - the only entry is a draft), yet the trial balance
columns differ by 100, far beyond 0.01, because the report also sums the
lines of unposted entries (their posted/date conditions sit in the outer
join ON clause). -/
theorem trial_balance_counterexample :
    (∀ e ∈ stC2.entries, e.is_posted = true →
      entryLineDebits stC2.lines e.id = entryLineCredits stC2.lines e.id) ∧
    trial_balance_total_debit stC2 0 = 100 ∧
    trial_balance_total_credit stC2 0 = 0 ∧
    ¬ (|trial_balance_total_debit stC2 0 -
        trial_balance_total_credit stC2 0| < 1 / 100) := by
  have hd : trial_balance_total_debit stC2 0 = 100 := by
    simp [trial_balance_total_debit, trial_balance_rows, trialBalanceRowOf,
      accountDebitSum, accountCreditSum, normalSideCols, stC2, acct1,
      List.filter_cons]
  have hc : trial_balance_total_credit stC2 0 = 0 := by
    simp [trial_balance_total_credit, trial_balance_rows, trialBalanceRowOf,
      accountDebitSum, accountCreditSum, normalSideCols, stC2, acct1,
      List.filter_cons]
  refine ⟨?_, hd, hc, ?_⟩
  · intro e he hp
    simp [stC2] at he
    rw [he] at hp
    simp at hp
  · rw [hd, hc]
    norm_num

/-- Witness for the amended C2 on the concrete balanced ledger `st3`. -/
theorem trial_balance_balanced_witness :
    trial_balance_total_debit st3 31 - trial_balance_total_credit st3 31
      = 0 ∧
    |trial_balance_total_debit st3 31 -
      trial_balance_total_credit st3 31| < 1 / 100 := by
  apply trial_balance_balanced st3 31
  refine ⟨by decide, by decide, by decide, by decide, ?_⟩
  intro e he
  simp [st3] at he
  rcases he with rfl | rfl <;>
    norm_num [entryLineDebits, entryLineCredits, st3, entryPosted,
      entryDraft, List.filter_cons]

end NGOLedger
